import Mathlib

/-!
Verification of the two-party chat relay (src/chat_server.py and
src/chat_client.py): the LineBuffer frame reassembler, UTF-8 decoding
with replacement, the char-mode pass-through framing, and the
server/client event-loop dispatch.

Bytes are modelled as natural numbers; decoded display text is
modelled as a list of Unicode code points (also natural numbers).
-/

namespace Chat

/-- The extraction loop of `LineBuffer.feed` at byte level
(chat_server.py lines 80-88, chat_client.py lines 51-61): repeatedly
find the index of the first linefeed byte (0x0A) in the buffer, split
off the slice up to and including that byte as one frame, and stop
when no linefeed remains.  Returns the list of frames and the residual
buffer. -/
def extractLines (buf : List Nat) : List (List Nat) × List Nat :=
  match h : buf.findIdx? (fun b => b == 10) with
  | none => ([], buf)
  | some idx =>
    (buf.take (idx + 1) :: (extractLines (buf.drop (idx + 1))).1,
     (extractLines (buf.drop (idx + 1))).2)
termination_by buf.length
decreasing_by
  all_goals
    cases buf with
    | nil => simp at h
    | cons x xs =>
      simp [List.length_drop]
      omega

theorem extractLines_of_none {buf : List Nat}
    (h : buf.findIdx? (fun b => b == 10) = none) :
    extractLines buf = ([], buf) := by
  conv_lhs => rw [extractLines.eq_def]
  split
  · rfl
  · rename_i idx h2
    rw [h] at h2
    cases h2

theorem extractLines_of_some {buf : List Nat} {idx : Nat}
    (h : buf.findIdx? (fun b => b == 10) = some idx) :
    extractLines buf =
      (buf.take (idx + 1) :: (extractLines (buf.drop (idx + 1))).1,
       (extractLines (buf.drop (idx + 1))).2) := by
  conv_lhs => rw [extractLines.eq_def]
  split
  · rename_i h2
    rw [h] at h2
    cases h2
  · rename_i idx2 h2
    rw [h] at h2
    cases h2
    rfl

/-- Structural companion of `extractLines`, used so that concrete
inputs can be evaluated by kernel reduction; proved equal to
`extractLines` below. -/
def extractLinesS : List Nat → List (List Nat) × List Nat
  | [] => ([], [])
  | b :: bs =>
    if b == 10 then
      ([b] :: (extractLinesS bs).1, (extractLinesS bs).2)
    else
      match extractLinesS bs with
      | ([], r) => ([], b :: r)
      | (f :: fs, r) => ((b :: f) :: fs, r)

theorem extractLinesS_of_no_lf {buf : List Nat}
    (h : ∀ b ∈ buf, (b == 10) = false) :
    extractLinesS buf = ([], buf) := by
  induction buf with
  | nil => rfl
  | cons b bs ih =>
    have hb : (b == 10) = false := h b (List.mem_cons_self b bs)
    have hs : extractLinesS bs = ([], bs) :=
      ih (fun x hx => h x (List.mem_cons_of_mem b hx))
    simp [extractLinesS, hb, hs]

theorem findIdx?_cons_zero (p : Nat → Bool) (b : Nat) (bs : List Nat) :
    (b :: bs).findIdx? p = if p b then some 0 else (bs.findIdx? p).map (· + 1) := by
  rw [List.findIdx?_cons]
  by_cases hb : p b
  · simp [hb]
  · simp only [hb, if_false]
    rw [show (1 : Nat) = 0 + 1 from rfl, List.findIdx?_start_succ]

theorem extractLines_eq_S : ∀ buf : List Nat, extractLines buf = extractLinesS buf := by
  intro buf
  induction buf with
  | nil =>
    rw [extractLines_of_none (by simp)]
    rfl
  | cons b bs ih =>
    by_cases hb : (b == 10) = true
    · have hfi : (b :: bs).findIdx? (fun x => x == 10) = some 0 := by
        rw [List.findIdx?_cons]
        simp [hb]
      rw [extractLines_of_some hfi]
      simp [extractLinesS, hb, ih]
    · cases hfind : bs.findIdx? (fun x => x == 10) with
      | none =>
        have hfi : (b :: bs).findIdx? (fun x => x == 10) = none := by
          rw [findIdx?_cons_zero]
          simp [hb, hfind]
        rw [extractLines_of_none hfi]
        have hS : extractLinesS bs = ([], bs) := by
          rw [← ih, extractLines_of_none hfind]
        simp [extractLinesS, hb, hS]
      | some i =>
        have hfi : (b :: bs).findIdx? (fun x => x == 10) = some (i + 1) := by
          rw [findIdx?_cons_zero]
          simp [hb, hfind]
        rw [extractLines_of_some hfi]
        have hS : extractLinesS bs =
            (bs.take (i + 1) :: (extractLines (bs.drop (i + 1))).1,
             (extractLines (bs.drop (i + 1))).2) := by
          rw [← ih]
          exact extractLines_of_some hfind
        simp only [extractLinesS, hb, if_false, Bool.false_eq_true]
        rw [hS]
        simp [List.take_succ_cons, List.drop_succ_cons]

/-- `LineBuffer.feed` at byte level: append the incoming data to the
buffer, then run the extraction loop (chat_server.py lines 78-88). -/
def feedBytes (buf data : List Nat) : List (List Nat) × List Nat :=
  extractLines (buf ++ data)

example : feedBytes [] [104, 105, 10, 120] = ([[104, 105, 10]], [120]) := by
  rw [feedBytes, extractLines_eq_S]
  decide

example : feedBytes [120] [10, 10, 97] = ([[120, 10], [10]], [97]) := by
  rw [feedBytes, extractLines_eq_S]
  decide

theorem lf_split {buf : List Nat} {idx : Nat}
    (h : buf.findIdx? (fun b => b == 10) = some idx) :
    buf.take (idx + 1) = buf.take idx ++ [10] ∧ 10 ∉ buf.take idx := by
  obtain ⟨hlen, hp, hbef⟩ := List.findIdx?_eq_some_iff_getElem.mp h
  have h10 : buf[idx] = 10 := by simpa using hp
  constructor
  · rw [List.take_succ, List.getElem?_eq_getElem hlen, h10]
    rfl
  · intro hmem
    obtain ⟨j, hj, hval⟩ := List.mem_iff_getElem.mp hmem
    have hj' : j < idx := by
      have := hj
      rw [List.length_take] at this
      omega
    have := hbef j hj'
    rw [List.getElem_take] at hval
    simp [hval] at this

theorem extractLines_flatten (buf : List Nat) :
    (extractLines buf).1.flatten ++ (extractLines buf).2 = buf := by
  induction buf using extractLines.induct with
  | case1 x h =>
    rw [extractLines_of_none h]
    simp
  | case2 x idx h ih =>
    rw [extractLines_of_some h]
    simp only [List.flatten_cons, List.append_assoc]
    rw [ih, List.take_append_drop]

theorem extractLines_rest_no_lf (buf : List Nat) : 10 ∉ (extractLines buf).2 := by
  induction buf using extractLines.induct with
  | case1 x h =>
    rw [extractLines_of_none h]
    intro hmem
    have := List.findIdx?_eq_none_iff.mp h 10 hmem
    simp at this
  | case2 x idx h ih =>
    rw [extractLines_of_some h]
    exact ih

theorem extractLines_frames (buf : List Nat) :
    ∀ f ∈ (extractLines buf).1, ∃ p, f = p ++ [10] ∧ 10 ∉ p := by
  induction buf using extractLines.induct with
  | case1 x h =>
    rw [extractLines_of_none h]
    simp
  | case2 x idx h ih =>
    rw [extractLines_of_some h]
    intro f hf
    rcases List.mem_cons.mp hf with hf | hf
    · subst hf
      exact ⟨x.take idx, (lf_split h).1, (lf_split h).2⟩
    · exact ih f hf

theorem extractLines_append (a b : List Nat) :
    extractLines (a ++ b) =
      ((extractLines a).1 ++ (extractLines ((extractLines a).2 ++ b)).1,
       (extractLines ((extractLines a).2 ++ b)).2) := by
  induction a using extractLines.induct with
  | case1 x h =>
    rw [extractLines_of_none h]
    simp
  | case2 x idx h ih =>
    have hlen : idx < x.length := (List.findIdx?_eq_some_iff_getElem.mp h).1
    have hfi : (x ++ b).findIdx? (fun v => v == 10) = some idx := by
      rw [List.findIdx?_append, h]
      rfl
    rw [extractLines_of_some hfi, extractLines_of_some h,
      List.take_append_of_le_length (by omega), List.drop_append_of_le_length (by omega), ih]
    simp

/-- A whole incremental run of `LineBuffer.feed` at byte level: a fresh
buffer is fed the chunks one at a time, accumulating all emitted
frames; returns the accumulated frames and the final residual
buffer. -/
def feedAll (chunks : List (List Nat)) : List (List Nat) × List Nat :=
  chunks.foldl (fun acc c => (acc.1 ++ (feedBytes acc.2 c).1, (feedBytes acc.2 c).2)) ([], [])

theorem feedAll_go (chunks : List (List Nat)) (fs : List (List Nat)) (buf : List Nat)
    (h : buf.findIdx? (fun b => b == 10) = none) :
    chunks.foldl (fun acc c => (acc.1 ++ (feedBytes acc.2 c).1, (feedBytes acc.2 c).2)) (fs, buf) =
      (fs ++ (extractLines (buf ++ chunks.flatten)).1,
       (extractLines (buf ++ chunks.flatten)).2) := by
  induction chunks generalizing fs buf with
  | nil =>
    simp only [List.foldl_nil, List.flatten_nil, List.append_nil]
    rw [extractLines_of_none h]
    simp
  | cons c cs ih =>
    simp only [List.foldl_cons]
    have hrest : (feedBytes buf c).2.findIdx? (fun b => b == 10) = none := by
      rw [List.findIdx?_eq_none_iff]
      intro x hx
      have hne : x ≠ 10 := by
        intro hx10
        subst hx10
        exact extractLines_rest_no_lf (buf ++ c) hx
      simpa using hne
    rw [ih _ _ hrest]
    have hap := extractLines_append (buf ++ c) cs.flatten
    simp only [feedBytes, List.flatten_cons, ← List.append_assoc]
    rw [hap]
    simp

theorem feedAll_eq (chunks : List (List Nat)) :
    feedAll chunks = extractLines chunks.flatten := by
  unfold feedAll
  rw [feedAll_go chunks [] [] (by simp)]
  simp

theorem flatten_getLast_lf :
    ∀ fs : List (List Nat), (∀ f ∈ fs, ∃ p, f = p ++ [10] ∧ 10 ∉ p) → fs ≠ [] →
      fs.flatten.getLast? = some 10 := by
  intro fs
  induction fs with
  | nil =>
    intro _ hne
    exact absurd rfl hne
  | cons f fs ih =>
    intro hall _
    obtain ⟨p, hp, -⟩ := hall f (List.mem_cons_self f fs)
    rw [List.flatten_cons, List.getLast?_append]
    cases fs with
    | nil => simp [hp]
    | cons g gs =>
      rw [ih (fun x hx => hall x (List.mem_cons_of_mem f hx)) (by simp)]
      rfl

/-- C1: feeding byte chunks incrementally to a fresh LineBuffer in
line mode loses and duplicates nothing: the concatenation of the
emitted frames followed by the residual buffer is exactly the
concatenation of the fed bytes, the residual buffer holds no linefeed
(so it is precisely the suffix after the last linefeed), and the
emitted part ends exactly at the last linefeed seen so far. -/
theorem lineMode_roundTrip (chunks : List (List Nat)) :
    (feedAll chunks).1.flatten ++ (feedAll chunks).2 = chunks.flatten ∧
    10 ∉ (feedAll chunks).2 ∧
    ((feedAll chunks).1 = [] ∨ ((feedAll chunks).1.flatten).getLast? = some 10) := by
  rw [feedAll_eq]
  refine ⟨extractLines_flatten _, extractLines_rest_no_lf _, ?_⟩
  by_cases hfs : (extractLines chunks.flatten).1 = []
  · exact Or.inl hfs
  · exact Or.inr (flatten_getLast_lf _ (extractLines_frames _) hfs)

/-- C10: `LineBuffer.feed` is insensitive to chunking: feeding `a`
then `b` to a fresh buffer yields the same frames, in order, and the
same residual buffer as feeding the single sequence `a ++ b`. -/
theorem feed_chunking_insensitive (a b : List Nat) :
    feedAll [a, b] = feedAll [a ++ b] := by
  rw [feedAll_eq, feedAll_eq]
  simp

/-! ## UTF-8 decoding with replacement

`LineBuffer.feed` decodes each extracted frame with
`line_bytes.decode("utf-8", errors="replace")` (chat_server.py line
87, chat_client.py line 60).  `utf8DecodeStrict` models Python's
default strict decoding, which raises on invalid input (modelled as
`none`); `utf8DecodeReplace` models `errors="replace"`, which
substitutes U+FFFD for each maximal invalid subpart and continues.
Decoded text is a list of Unicode code points. -/

/-- A UTF-8 continuation byte (0x80-0xBF). -/
def isCont (b : Nat) : Bool := 0x80 ≤ b && b ≤ 0xBF

/-- Allowed first continuation byte after a three-byte lead: excludes
overlong encodings (lead 0xE0) and surrogates (lead 0xED). -/
def cont1Ok3 (b c : Nat) : Bool :=
  if b = 0xE0 then 0xA0 ≤ c && c ≤ 0xBF
  else if b = 0xED then 0x80 ≤ c && c ≤ 0x9F
  else isCont c

/-- Allowed first continuation byte after a four-byte lead: excludes
overlong encodings (lead 0xF0) and code points above U+10FFFF (lead
0xF4). -/
def cont1Ok4 (b c : Nat) : Bool :=
  if b = 0xF0 then 0x90 ≤ c && c ≤ 0xBF
  else if b = 0xF4 then 0x80 ≤ c && c ≤ 0x8F
  else isCont c

/-- The Unicode replacement character U+FFFD. -/
def replCp : Nat := 0xFFFD

/-- Code point of a two-byte UTF-8 sequence. -/
def cp2 (b c1 : Nat) : Nat := (b - 0xC0) * 64 + (c1 - 0x80)

/-- Code point of a three-byte UTF-8 sequence. -/
def cp3 (b c1 c2 : Nat) : Nat := ((b - 0xE0) * 64 + (c1 - 0x80)) * 64 + (c2 - 0x80)

/-- Code point of a four-byte UTF-8 sequence. -/
def cp4 (b c1 c2 c3 : Nat) : Nat :=
  (((b - 0xF0) * 64 + (c1 - 0x80)) * 64 + (c2 - 0x80)) * 64 + (c3 - 0x80)

/-- UTF-8 decoding with `errors="replace"`: each maximal invalid
subpart becomes one U+FFFD and decoding resumes at the offending
byte; decoding never fails. -/
def utf8DecodeReplace : List Nat → List Nat
  | [] => []
  | b :: bs =>
    if b < 0x80 then b :: utf8DecodeReplace bs
    else if 0xC2 ≤ b && b ≤ 0xDF then
      match bs with
      | [] => [replCp]
      | c1 :: rest =>
        if isCont c1 then cp2 b c1 :: utf8DecodeReplace rest
        else replCp :: utf8DecodeReplace (c1 :: rest)
    else if 0xE0 ≤ b && b ≤ 0xEF then
      match bs with
      | [] => [replCp]
      | c1 :: rest =>
        if cont1Ok3 b c1 then
          match rest with
          | [] => [replCp]
          | c2 :: rest2 =>
            if isCont c2 then cp3 b c1 c2 :: utf8DecodeReplace rest2
            else replCp :: utf8DecodeReplace (c2 :: rest2)
        else replCp :: utf8DecodeReplace (c1 :: rest)
    else if 0xF0 ≤ b && b ≤ 0xF4 then
      match bs with
      | [] => [replCp]
      | c1 :: rest =>
        if cont1Ok4 b c1 then
          match rest with
          | [] => [replCp]
          | c2 :: rest2 =>
            if isCont c2 then
              match rest2 with
              | [] => [replCp]
              | c3 :: rest3 =>
                if isCont c3 then cp4 b c1 c2 c3 :: utf8DecodeReplace rest3
                else replCp :: utf8DecodeReplace (c3 :: rest3)
            else replCp :: utf8DecodeReplace (c2 :: rest2)
        else replCp :: utf8DecodeReplace (c1 :: rest)
    else replCp :: utf8DecodeReplace bs

/-- Strict UTF-8 decoding (Python's default `bytes.decode("utf-8")`),
which fails on any invalid sequence: `none` models the raised
`UnicodeDecodeError`. -/
def utf8DecodeStrict : List Nat → Option (List Nat)
  | [] => some []
  | b :: bs =>
    if b < 0x80 then (utf8DecodeStrict bs).map (b :: ·)
    else if 0xC2 ≤ b && b ≤ 0xDF then
      match bs with
      | [] => none
      | c1 :: rest =>
        if isCont c1 then (utf8DecodeStrict rest).map (cp2 b c1 :: ·)
        else none
    else if 0xE0 ≤ b && b ≤ 0xEF then
      match bs with
      | [] => none
      | c1 :: rest =>
        if cont1Ok3 b c1 then
          match rest with
          | [] => none
          | c2 :: rest2 =>
            if isCont c2 then (utf8DecodeStrict rest2).map (cp3 b c1 c2 :: ·)
            else none
        else none
    else if 0xF0 ≤ b && b ≤ 0xF4 then
      match bs with
      | [] => none
      | c1 :: rest =>
        if cont1Ok4 b c1 then
          match rest with
          | [] => none
          | c2 :: rest2 =>
            if isCont c2 then
              match rest2 with
              | [] => none
              | c3 :: rest3 =>
                if isCont c3 then (utf8DecodeStrict rest3).map (cp4 b c1 c2 c3 :: ·)
                else none
            else none
        else none
    else none

example : utf8DecodeReplace [104, 105, 10] = [104, 105, 10] := by decide

example : utf8DecodeReplace [0xC3, 0xA9] = [0xE9] := by decide

example : utf8DecodeReplace [0xFF, 65] = [replCp, 65] := by decide

example : utf8DecodeReplace [0xE2, 0x82, 0xAC] = [0x20AC] := by decide

example : utf8DecodeStrict [0xFF, 65] = none := by decide

example : utf8DecodeStrict [0xF0, 0x9F, 0x98, 0x80] = some [0x1F600] := by decide

example : utf8DecodeReplace [0xE0, 0xA0] = [replCp] := by decide

example : utf8DecodeReplace [0xE0, 0x80, 0x41] = [replCp, replCp, 0x41] := by decide

example : utf8DecodeReplace [0xF0, 0x28, 0x8C, 0x28] = [replCp, 0x28, replCp, 0x28] := by
  decide

example : utf8DecodeReplace [0xED, 0xA0, 0x80] = [replCp, replCp, replCp] := by decide

example : utf8DecodeReplace [0xF4, 0x90, 0x80, 0x80] = [replCp, replCp, replCp, replCp] := by
  decide

example : utf8DecodeReplace [0xF0, 0x9F, 0x98] = [replCp] := by decide

example : utf8DecodeReplace [0xC2, 0x0A] = [replCp, 0x0A] := by decide

/-! Branch equations for `utf8DecodeReplace`, one per execution path. -/

theorem utf8R_ascii {b : Nat} (bs : List Nat) (h1 : b < 128) :
    utf8DecodeReplace (b :: bs) = b :: utf8DecodeReplace bs := by
  conv_lhs => rw [utf8DecodeReplace.eq_def]
  simp [h1]

theorem utf8R_lead2_nil {b : Nat} (h1 : ¬ b < 128) (h2 : (0xC2 ≤ b && b ≤ 0xDF) = true) :
    utf8DecodeReplace [b] = [replCp] := by
  conv_lhs => rw [utf8DecodeReplace.eq_def]
  simp [h1, h2]

theorem utf8R_lead2_ok {b c1 : Nat} (rest : List Nat) (h1 : ¬ b < 128)
    (h2 : (0xC2 ≤ b && b ≤ 0xDF) = true) (hc : isCont c1 = true) :
    utf8DecodeReplace (b :: c1 :: rest) = cp2 b c1 :: utf8DecodeReplace rest := by
  conv_lhs => rw [utf8DecodeReplace.eq_def]
  simp [h1, h2, hc]

theorem utf8R_lead2_bad {b c1 : Nat} (rest : List Nat) (h1 : ¬ b < 128)
    (h2 : (0xC2 ≤ b && b ≤ 0xDF) = true) (hc : ¬ isCont c1 = true) :
    utf8DecodeReplace (b :: c1 :: rest) = replCp :: utf8DecodeReplace (c1 :: rest) := by
  conv_lhs => rw [utf8DecodeReplace.eq_def]
  simp [h1, h2, hc]

theorem utf8R_lead3_nil {b : Nat} (h1 : ¬ b < 128) (h2 : ¬ (0xC2 ≤ b && b ≤ 0xDF) = true)
    (h3 : (0xE0 ≤ b && b ≤ 0xEF) = true) :
    utf8DecodeReplace [b] = [replCp] := by
  conv_lhs => rw [utf8DecodeReplace.eq_def]
  simp [h1, h2, h3]

theorem utf8R_lead3_one {b c1 : Nat} (h1 : ¬ b < 128) (h2 : ¬ (0xC2 ≤ b && b ≤ 0xDF) = true)
    (h3 : (0xE0 ≤ b && b ≤ 0xEF) = true) (hc1 : cont1Ok3 b c1 = true) :
    utf8DecodeReplace [b, c1] = [replCp] := by
  conv_lhs => rw [utf8DecodeReplace.eq_def]
  simp [h1, h2, h3, hc1]

theorem utf8R_lead3_ok {b c1 c2 : Nat} (rest2 : List Nat) (h1 : ¬ b < 128)
    (h2 : ¬ (0xC2 ≤ b && b ≤ 0xDF) = true) (h3 : (0xE0 ≤ b && b ≤ 0xEF) = true)
    (hc1 : cont1Ok3 b c1 = true) (hc2 : isCont c2 = true) :
    utf8DecodeReplace (b :: c1 :: c2 :: rest2) = cp3 b c1 c2 :: utf8DecodeReplace rest2 := by
  conv_lhs => rw [utf8DecodeReplace.eq_def]
  simp [h1, h2, h3, hc1, hc2]

theorem utf8R_lead3_bad2 {b c1 c2 : Nat} (rest2 : List Nat) (h1 : ¬ b < 128)
    (h2 : ¬ (0xC2 ≤ b && b ≤ 0xDF) = true) (h3 : (0xE0 ≤ b && b ≤ 0xEF) = true)
    (hc1 : cont1Ok3 b c1 = true) (hc2 : ¬ isCont c2 = true) :
    utf8DecodeReplace (b :: c1 :: c2 :: rest2) =
      replCp :: utf8DecodeReplace (c2 :: rest2) := by
  conv_lhs => rw [utf8DecodeReplace.eq_def]
  simp [h1, h2, h3, hc1, hc2]

theorem utf8R_lead3_bad1 {b c1 : Nat} (rest : List Nat) (h1 : ¬ b < 128)
    (h2 : ¬ (0xC2 ≤ b && b ≤ 0xDF) = true) (h3 : (0xE0 ≤ b && b ≤ 0xEF) = true)
    (hc1 : ¬ cont1Ok3 b c1 = true) :
    utf8DecodeReplace (b :: c1 :: rest) = replCp :: utf8DecodeReplace (c1 :: rest) := by
  conv_lhs => rw [utf8DecodeReplace.eq_def]
  simp [h1, h2, h3, hc1]

theorem utf8R_lead4_nil {b : Nat} (h1 : ¬ b < 128) (h2 : ¬ (0xC2 ≤ b && b ≤ 0xDF) = true)
    (h3 : ¬ (0xE0 ≤ b && b ≤ 0xEF) = true) (h4 : (0xF0 ≤ b && b ≤ 0xF4) = true) :
    utf8DecodeReplace [b] = [replCp] := by
  conv_lhs => rw [utf8DecodeReplace.eq_def]
  simp [h1, h2, h3, h4]

theorem utf8R_lead4_one {b c1 : Nat} (h1 : ¬ b < 128) (h2 : ¬ (0xC2 ≤ b && b ≤ 0xDF) = true)
    (h3 : ¬ (0xE0 ≤ b && b ≤ 0xEF) = true) (h4 : (0xF0 ≤ b && b ≤ 0xF4) = true)
    (hc1 : cont1Ok4 b c1 = true) :
    utf8DecodeReplace [b, c1] = [replCp] := by
  conv_lhs => rw [utf8DecodeReplace.eq_def]
  simp [h1, h2, h3, h4, hc1]

theorem utf8R_lead4_two {b c1 c2 : Nat} (h1 : ¬ b < 128)
    (h2 : ¬ (0xC2 ≤ b && b ≤ 0xDF) = true) (h3 : ¬ (0xE0 ≤ b && b ≤ 0xEF) = true)
    (h4 : (0xF0 ≤ b && b ≤ 0xF4) = true) (hc1 : cont1Ok4 b c1 = true)
    (hc2 : isCont c2 = true) :
    utf8DecodeReplace [b, c1, c2] = [replCp] := by
  conv_lhs => rw [utf8DecodeReplace.eq_def]
  simp [h1, h2, h3, h4, hc1, hc2]

theorem utf8R_lead4_ok {b c1 c2 c3 : Nat} (rest3 : List Nat) (h1 : ¬ b < 128)
    (h2 : ¬ (0xC2 ≤ b && b ≤ 0xDF) = true) (h3 : ¬ (0xE0 ≤ b && b ≤ 0xEF) = true)
    (h4 : (0xF0 ≤ b && b ≤ 0xF4) = true) (hc1 : cont1Ok4 b c1 = true)
    (hc2 : isCont c2 = true) (hc3 : isCont c3 = true) :
    utf8DecodeReplace (b :: c1 :: c2 :: c3 :: rest3) =
      cp4 b c1 c2 c3 :: utf8DecodeReplace rest3 := by
  conv_lhs => rw [utf8DecodeReplace.eq_def]
  simp [h1, h2, h3, h4, hc1, hc2, hc3]

theorem utf8R_lead4_bad3 {b c1 c2 c3 : Nat} (rest3 : List Nat) (h1 : ¬ b < 128)
    (h2 : ¬ (0xC2 ≤ b && b ≤ 0xDF) = true) (h3 : ¬ (0xE0 ≤ b && b ≤ 0xEF) = true)
    (h4 : (0xF0 ≤ b && b ≤ 0xF4) = true) (hc1 : cont1Ok4 b c1 = true)
    (hc2 : isCont c2 = true) (hc3 : ¬ isCont c3 = true) :
    utf8DecodeReplace (b :: c1 :: c2 :: c3 :: rest3) =
      replCp :: utf8DecodeReplace (c3 :: rest3) := by
  conv_lhs => rw [utf8DecodeReplace.eq_def]
  simp [h1, h2, h3, h4, hc1, hc2, hc3]

theorem utf8R_lead4_bad2 {b c1 c2 : Nat} (rest2 : List Nat) (h1 : ¬ b < 128)
    (h2 : ¬ (0xC2 ≤ b && b ≤ 0xDF) = true) (h3 : ¬ (0xE0 ≤ b && b ≤ 0xEF) = true)
    (h4 : (0xF0 ≤ b && b ≤ 0xF4) = true) (hc1 : cont1Ok4 b c1 = true)
    (hc2 : ¬ isCont c2 = true) :
    utf8DecodeReplace (b :: c1 :: c2 :: rest2) =
      replCp :: utf8DecodeReplace (c2 :: rest2) := by
  conv_lhs => rw [utf8DecodeReplace.eq_def]
  simp [h1, h2, h3, h4, hc1, hc2]

theorem utf8R_lead4_bad1 {b c1 : Nat} (rest : List Nat) (h1 : ¬ b < 128)
    (h2 : ¬ (0xC2 ≤ b && b ≤ 0xDF) = true) (h3 : ¬ (0xE0 ≤ b && b ≤ 0xEF) = true)
    (h4 : (0xF0 ≤ b && b ≤ 0xF4) = true) (hc1 : ¬ cont1Ok4 b c1 = true) :
    utf8DecodeReplace (b :: c1 :: rest) = replCp :: utf8DecodeReplace (c1 :: rest) := by
  conv_lhs => rw [utf8DecodeReplace.eq_def]
  simp [h1, h2, h3, h4, hc1]

theorem utf8R_badlead {b : Nat} (bs : List Nat) (h1 : ¬ b < 128)
    (h2 : ¬ (0xC2 ≤ b && b ≤ 0xDF) = true) (h3 : ¬ (0xE0 ≤ b && b ≤ 0xEF) = true)
    (h4 : ¬ (0xF0 ≤ b && b ≤ 0xF4) = true) :
    utf8DecodeReplace (b :: bs) = replCp :: utf8DecodeReplace bs := by
  conv_lhs => rw [utf8DecodeReplace.eq_def]
  simp [h1, h2, h3, h4]

theorem isCont_bounds {c : Nat} (h : isCont c = true) : 128 ≤ c ∧ c ≤ 191 := by
  simpa [isCont] using h

theorem cont1Ok3_bounds {b c : Nat} (h : cont1Ok3 b c = true) : 128 ≤ c ∧ c ≤ 191 := by
  unfold cont1Ok3 at h
  split_ifs at h <;> simp [isCont] at h <;> omega

theorem cont1Ok4_bounds {b c : Nat} (h : cont1Ok4 b c = true) : 128 ≤ c ∧ c ≤ 191 := by
  unfold cont1Ok4 at h
  split_ifs at h <;> simp [isCont] at h <;> omega

theorem cp2_ne_lf {b c1 : Nat} (h2 : (0xC2 ≤ b && b ≤ 0xDF) = true) : cp2 b c1 ≠ 10 := by
  have hb : 194 ≤ b ∧ b ≤ 223 := by simpa using h2
  simp only [cp2]
  omega

theorem cp3_ne_lf {b c1 c2 : Nat} (h3 : (0xE0 ≤ b && b ≤ 0xEF) = true)
    (hc1 : cont1Ok3 b c1 = true) : cp3 b c1 c2 ≠ 10 := by
  have hb : 224 ≤ b ∧ b ≤ 239 := by simpa using h3
  unfold cont1Ok3 at hc1
  split_ifs at hc1 <;> simp [isCont] at hc1 <;> simp only [cp3] <;> omega

theorem cp4_ne_lf {b c1 c2 c3 : Nat} (h4 : (0xF0 ≤ b && b ≤ 0xF4) = true)
    (hc1 : cont1Ok4 b c1 = true) : cp4 b c1 c2 c3 ≠ 10 := by
  have hb : 240 ≤ b ∧ b ≤ 244 := by simpa using h4
  unfold cont1Ok4 at hc1
  split_ifs at hc1 <;> simp [isCont] at hc1 <;> simp only [cp4] <;> omega

/-- Replacement decoding preserves the number of linefeeds: a code
point 10 appears in the decoded text exactly as often as the byte 0x0A
appears in the input. -/
theorem utf8_count_lf (l : List Nat) :
    (utf8DecodeReplace l).count 10 = l.count 10 := by
  induction l using utf8DecodeReplace.induct with
  | case1 => rfl
  | case2 b bs h1 ih =>
    rw [utf8R_ascii bs h1]
    simp [List.count_cons, ih]
  | case3 b h1 h2 =>
    rw [utf8R_lead2_nil h1 h2]
    have hbne : b ≠ 10 := by omega
    simp [List.count_cons, replCp, hbne]
  | case4 b h1 h2 c1 bs hc ih =>
    rw [utf8R_lead2_ok bs h1 h2 hc]
    have hbne : b ≠ 10 := by omega
    have hcb := isCont_bounds hc
    have hc1ne : c1 ≠ 10 := by omega
    simp [List.count_cons, cp2_ne_lf h2, hbne, hc1ne, ih]
  | case5 b h1 h2 c1 bs hc ih =>
    rw [utf8R_lead2_bad bs h1 h2 hc]
    have hbne : b ≠ 10 := by omega
    simp [List.count_cons, replCp, hbne, ih]
  | case6 b h1 h2 h3 =>
    rw [utf8R_lead3_nil h1 h2 h3]
    have hbne : b ≠ 10 := by omega
    simp [List.count_cons, replCp, hbne]
  | case7 b h1 h2 h3 c1 hc1 =>
    rw [utf8R_lead3_one h1 h2 h3 hc1]
    have hbne : b ≠ 10 := by omega
    have hcb := cont1Ok3_bounds hc1
    have hc1ne : c1 ≠ 10 := by omega
    simp [List.count_cons, replCp, hbne, hc1ne]
  | case8 b h1 h2 h3 c1 hc1 c2 bs hc2 ih =>
    rw [utf8R_lead3_ok bs h1 h2 h3 hc1 hc2]
    have hbne : b ≠ 10 := by omega
    have hcb := cont1Ok3_bounds hc1
    have hc1ne : c1 ≠ 10 := by omega
    have hcb2 := isCont_bounds hc2
    have hc2ne : c2 ≠ 10 := by omega
    simp [List.count_cons, cp3_ne_lf h3 hc1, hbne, hc1ne, hc2ne, ih]
  | case9 b h1 h2 h3 c1 hc1 c2 bs hc2 ih =>
    rw [utf8R_lead3_bad2 bs h1 h2 h3 hc1 hc2]
    have hbne : b ≠ 10 := by omega
    have hcb := cont1Ok3_bounds hc1
    have hc1ne : c1 ≠ 10 := by omega
    simp [List.count_cons, replCp, hbne, hc1ne, ih]
  | case10 b h1 h2 h3 c1 bs hc1 ih =>
    rw [utf8R_lead3_bad1 bs h1 h2 h3 hc1]
    have hbne : b ≠ 10 := by omega
    simp [List.count_cons, replCp, hbne, ih]
  | case11 b h1 h2 h3 h4 =>
    rw [utf8R_lead4_nil h1 h2 h3 h4]
    have hbne : b ≠ 10 := by omega
    simp [List.count_cons, replCp, hbne]
  | case12 b h1 h2 h3 h4 c1 hc1 =>
    rw [utf8R_lead4_one h1 h2 h3 h4 hc1]
    have hbne : b ≠ 10 := by omega
    have hcb := cont1Ok4_bounds hc1
    have hc1ne : c1 ≠ 10 := by omega
    simp [List.count_cons, replCp, hbne, hc1ne]
  | case13 b h1 h2 h3 h4 c1 hc1 c2 hc2 =>
    rw [utf8R_lead4_two h1 h2 h3 h4 hc1 hc2]
    have hbne : b ≠ 10 := by omega
    have hcb := cont1Ok4_bounds hc1
    have hc1ne : c1 ≠ 10 := by omega
    have hcb2 := isCont_bounds hc2
    have hc2ne : c2 ≠ 10 := by omega
    simp [List.count_cons, replCp, hbne, hc1ne, hc2ne]
  | case14 b h1 h2 h3 h4 c1 hc1 c2 hc2 c3 bs hc3 ih =>
    rw [utf8R_lead4_ok bs h1 h2 h3 h4 hc1 hc2 hc3]
    have hbne : b ≠ 10 := by omega
    have hcb := cont1Ok4_bounds hc1
    have hc1ne : c1 ≠ 10 := by omega
    have hcb2 := isCont_bounds hc2
    have hc2ne : c2 ≠ 10 := by omega
    have hcb3 := isCont_bounds hc3
    have hc3ne : c3 ≠ 10 := by omega
    simp [List.count_cons, cp4_ne_lf h4 hc1, hbne, hc1ne, hc2ne, hc3ne, ih]
  | case15 b h1 h2 h3 h4 c1 hc1 c2 hc2 c3 bs hc3 ih =>
    rw [utf8R_lead4_bad3 bs h1 h2 h3 h4 hc1 hc2 hc3]
    have hbne : b ≠ 10 := by omega
    have hcb := cont1Ok4_bounds hc1
    have hc1ne : c1 ≠ 10 := by omega
    have hcb2 := isCont_bounds hc2
    have hc2ne : c2 ≠ 10 := by omega
    simp [List.count_cons, replCp, hbne, hc1ne, hc2ne, ih]
  | case16 b h1 h2 h3 h4 c1 hc1 c2 bs hc2 ih =>
    rw [utf8R_lead4_bad2 bs h1 h2 h3 h4 hc1 hc2]
    have hbne : b ≠ 10 := by omega
    have hcb := cont1Ok4_bounds hc1
    have hc1ne : c1 ≠ 10 := by omega
    simp [List.count_cons, replCp, hbne, hc1ne, ih]
  | case17 b h1 h2 h3 h4 c1 bs hc1 ih =>
    rw [utf8R_lead4_bad1 bs h1 h2 h3 h4 hc1]
    have hbne : b ≠ 10 := by omega
    simp [List.count_cons, replCp, hbne, ih]
  | case18 b bs h1 h2 h3 h4 ih =>
    rw [utf8R_badlead bs h1 h2 h3 h4]
    have hbne : b ≠ 10 := by omega
    simp [List.count_cons, replCp, hbne, ih]

theorem utf8R_ten : utf8DecodeReplace [10] = [10] := by decide

theorem isCont_lf : ¬ isCont 10 = true := by decide

theorem cont1Ok3_lf (b : Nat) : ¬ cont1Ok3 b 10 = true := by
  unfold cont1Ok3
  split_ifs <;> decide

theorem cont1Ok4_lf (b : Nat) : ¬ cont1Ok4 b 10 = true := by
  unfold cont1Ok4
  split_ifs <;> decide

/-- Appending a linefeed byte to any input appends exactly the code
point 10 to the replacement-decoded output: a linefeed is never
swallowed by a preceding invalid or truncated sequence. -/
theorem utf8_append_lf (l : List Nat) :
    utf8DecodeReplace (l ++ [10]) = utf8DecodeReplace l ++ [10] := by
  induction l using utf8DecodeReplace.induct with
  | case1 => decide
  | case2 b bs h1 ih =>
    simp only [List.cons_append]
    rw [utf8R_ascii (bs ++ [10]) h1, ih, utf8R_ascii bs h1]
    simp
  | case3 b h1 h2 =>
    simp only [List.cons_append, List.nil_append]
    rw [utf8R_lead2_bad [] h1 h2 isCont_lf, utf8R_ten, utf8R_lead2_nil h1 h2]
    simp
  | case4 b h1 h2 c1 bs hc ih =>
    simp only [List.cons_append]
    rw [utf8R_lead2_ok (bs ++ [10]) h1 h2 hc, ih, utf8R_lead2_ok bs h1 h2 hc]
    simp
  | case5 b h1 h2 c1 bs hc ih =>
    simp only [List.cons_append]
    simp only [List.cons_append] at ih
    rw [utf8R_lead2_bad (bs ++ [10]) h1 h2 hc, ih, utf8R_lead2_bad bs h1 h2 hc]
    simp
  | case6 b h1 h2 h3 =>
    simp only [List.cons_append, List.nil_append]
    rw [utf8R_lead3_bad1 [] h1 h2 h3 (cont1Ok3_lf b), utf8R_ten, utf8R_lead3_nil h1 h2 h3]
    simp
  | case7 b h1 h2 h3 c1 hc1 =>
    simp only [List.cons_append, List.nil_append]
    rw [utf8R_lead3_bad2 [] h1 h2 h3 hc1 isCont_lf, utf8R_ten,
      utf8R_lead3_one h1 h2 h3 hc1]
    simp
  | case8 b h1 h2 h3 c1 hc1 c2 bs hc2 ih =>
    simp only [List.cons_append]
    rw [utf8R_lead3_ok (bs ++ [10]) h1 h2 h3 hc1 hc2, ih,
      utf8R_lead3_ok bs h1 h2 h3 hc1 hc2]
    simp
  | case9 b h1 h2 h3 c1 hc1 c2 bs hc2 ih =>
    simp only [List.cons_append]
    simp only [List.cons_append] at ih
    rw [utf8R_lead3_bad2 (bs ++ [10]) h1 h2 h3 hc1 hc2, ih,
      utf8R_lead3_bad2 bs h1 h2 h3 hc1 hc2]
    simp
  | case10 b h1 h2 h3 c1 bs hc1 ih =>
    simp only [List.cons_append]
    simp only [List.cons_append] at ih
    rw [utf8R_lead3_bad1 (bs ++ [10]) h1 h2 h3 hc1, ih, utf8R_lead3_bad1 bs h1 h2 h3 hc1]
    simp
  | case11 b h1 h2 h3 h4 =>
    simp only [List.cons_append, List.nil_append]
    rw [utf8R_lead4_bad1 [] h1 h2 h3 h4 (cont1Ok4_lf b), utf8R_ten,
      utf8R_lead4_nil h1 h2 h3 h4]
    simp
  | case12 b h1 h2 h3 h4 c1 hc1 =>
    simp only [List.cons_append, List.nil_append]
    rw [utf8R_lead4_bad2 [] h1 h2 h3 h4 hc1 isCont_lf, utf8R_ten,
      utf8R_lead4_one h1 h2 h3 h4 hc1]
    simp
  | case13 b h1 h2 h3 h4 c1 hc1 c2 hc2 =>
    simp only [List.cons_append, List.nil_append]
    rw [utf8R_lead4_bad3 [] h1 h2 h3 h4 hc1 hc2 isCont_lf, utf8R_ten,
      utf8R_lead4_two h1 h2 h3 h4 hc1 hc2]
    simp
  | case14 b h1 h2 h3 h4 c1 hc1 c2 hc2 c3 bs hc3 ih =>
    simp only [List.cons_append]
    rw [utf8R_lead4_ok (bs ++ [10]) h1 h2 h3 h4 hc1 hc2 hc3, ih,
      utf8R_lead4_ok bs h1 h2 h3 h4 hc1 hc2 hc3]
    simp
  | case15 b h1 h2 h3 h4 c1 hc1 c2 hc2 c3 bs hc3 ih =>
    simp only [List.cons_append]
    simp only [List.cons_append] at ih
    rw [utf8R_lead4_bad3 (bs ++ [10]) h1 h2 h3 h4 hc1 hc2 hc3, ih,
      utf8R_lead4_bad3 bs h1 h2 h3 h4 hc1 hc2 hc3]
    simp
  | case16 b h1 h2 h3 h4 c1 hc1 c2 bs hc2 ih =>
    simp only [List.cons_append]
    simp only [List.cons_append] at ih
    rw [utf8R_lead4_bad2 (bs ++ [10]) h1 h2 h3 h4 hc1 hc2, ih,
      utf8R_lead4_bad2 bs h1 h2 h3 h4 hc1 hc2]
    simp
  | case17 b h1 h2 h3 h4 c1 bs hc1 ih =>
    simp only [List.cons_append]
    simp only [List.cons_append] at ih
    rw [utf8R_lead4_bad1 (bs ++ [10]) h1 h2 h3 h4 hc1, ih,
      utf8R_lead4_bad1 bs h1 h2 h3 h4 hc1]
    simp
  | case18 b bs h1 h2 h3 h4 ih =>
    simp only [List.cons_append]
    rw [utf8R_badlead (bs ++ [10]) h1 h2 h3 h4, ih, utf8R_badlead bs h1 h2 h3 h4]
    simp

/-- When strict decoding succeeds, replacement decoding returns the
same text: substitution only happens on inputs that strict decoding
rejects. -/
theorem utf8_strict_agree (l : List Nat) :
    ∀ cs, utf8DecodeStrict l = some cs → utf8DecodeReplace l = cs := by
  induction l using utf8DecodeStrict.induct with
  | case1 =>
    intro cs h
    rw [utf8DecodeStrict.eq_def] at h
    simp at h
    subst h
    rfl
  | case2 b bs h1 ih =>
    intro cs h
    rw [utf8DecodeStrict.eq_def] at h
    simp [h1] at h
    obtain ⟨a, ha, rfl⟩ := h
    rw [utf8R_ascii bs h1, ih a ha]
  | case3 b h1 h2 =>
    intro cs h
    rw [utf8DecodeStrict.eq_def] at h
    simp [h1, h2] at h
  | case4 b h1 h2 c1 bs hc ih =>
    intro cs h
    rw [utf8DecodeStrict.eq_def] at h
    simp [h1, h2, hc] at h
    obtain ⟨a, ha, rfl⟩ := h
    rw [utf8R_lead2_ok bs h1 h2 hc, ih a ha]
  | case5 b h1 h2 c1 bs hc =>
    intro cs h
    rw [utf8DecodeStrict.eq_def] at h
    simp [h1, h2, hc] at h
  | case6 b h1 h2 h3 =>
    intro cs h
    rw [utf8DecodeStrict.eq_def] at h
    simp [h1, h2, h3] at h
  | case7 b h1 h2 h3 c1 hc1 =>
    intro cs h
    rw [utf8DecodeStrict.eq_def] at h
    simp [h1, h2, h3, hc1] at h
  | case8 b h1 h2 h3 c1 hc1 c2 bs hc2 ih =>
    intro cs h
    rw [utf8DecodeStrict.eq_def] at h
    simp [h1, h2, h3, hc1, hc2] at h
    obtain ⟨a, ha, rfl⟩ := h
    rw [utf8R_lead3_ok bs h1 h2 h3 hc1 hc2, ih a ha]
  | case9 b h1 h2 h3 c1 hc1 c2 bs hc2 =>
    intro cs h
    rw [utf8DecodeStrict.eq_def] at h
    simp [h1, h2, h3, hc1, hc2] at h
  | case10 b h1 h2 h3 c1 bs hc1 =>
    intro cs h
    rw [utf8DecodeStrict.eq_def] at h
    simp [h1, h2, h3, hc1] at h
  | case11 b h1 h2 h3 h4 =>
    intro cs h
    rw [utf8DecodeStrict.eq_def] at h
    simp [h1, h2, h3, h4] at h
  | case12 b h1 h2 h3 h4 c1 hc1 =>
    intro cs h
    rw [utf8DecodeStrict.eq_def] at h
    simp [h1, h2, h3, h4, hc1] at h
  | case13 b h1 h2 h3 h4 c1 hc1 c2 hc2 =>
    intro cs h
    rw [utf8DecodeStrict.eq_def] at h
    simp [h1, h2, h3, h4, hc1, hc2] at h
  | case14 b h1 h2 h3 h4 c1 hc1 c2 hc2 c3 bs hc3 ih =>
    intro cs h
    rw [utf8DecodeStrict.eq_def] at h
    simp [h1, h2, h3, h4, hc1, hc2, hc3] at h
    obtain ⟨a, ha, rfl⟩ := h
    rw [utf8R_lead4_ok bs h1 h2 h3 h4 hc1 hc2 hc3, ih a ha]
  | case15 b h1 h2 h3 h4 c1 hc1 c2 hc2 c3 bs hc3 =>
    intro cs h
    rw [utf8DecodeStrict.eq_def] at h
    simp [h1, h2, h3, h4, hc1, hc2, hc3] at h
  | case16 b h1 h2 h3 h4 c1 hc1 c2 bs hc2 =>
    intro cs h
    rw [utf8DecodeStrict.eq_def] at h
    simp [h1, h2, h3, h4, hc1, hc2] at h
  | case17 b h1 h2 h3 h4 c1 bs hc1 =>
    intro cs h
    rw [utf8DecodeStrict.eq_def] at h
    simp [h1, h2, h3, h4, hc1] at h
  | case18 b bs h1 h2 h3 h4 =>
    intro cs h
    rw [utf8DecodeStrict.eq_def] at h
    simp [h1, h2, h3, h4] at h

/-! ## The decoded feed -/

/-- The full `LineBuffer.feed` loop (chat_server.py lines 80-88,
chat_client.py lines 51-61): each linefeed-terminated slice is removed
from the buffer and decoded with `errors="replace"`; the decoded lines
are returned together with the residual buffer. -/
def feedLoop (buf : List Nat) : List (List Nat) × List Nat :=
  match h : buf.findIdx? (fun b => b == 10) with
  | none => ([], buf)
  | some idx =>
    (utf8DecodeReplace (buf.take (idx + 1)) :: (feedLoop (buf.drop (idx + 1))).1,
     (feedLoop (buf.drop (idx + 1))).2)
termination_by buf.length
decreasing_by
  all_goals
    cases buf with
    | nil => simp at h
    | cons x xs =>
      simp [List.length_drop]
      omega

/-- `LineBuffer.feed`: extend the buffer with the incoming bytes, then
extract and decode the complete lines (chat_server.py lines 74-88). -/
def feed (buf data : List Nat) : List (List Nat) × List Nat :=
  feedLoop (buf ++ data)

theorem feedLoop_of_none {buf : List Nat}
    (h : buf.findIdx? (fun b => b == 10) = none) :
    feedLoop buf = ([], buf) := by
  conv_lhs => rw [feedLoop.eq_def]
  split
  · rfl
  · rename_i idx h2
    rw [h] at h2
    cases h2

theorem feedLoop_of_some {buf : List Nat} {idx : Nat}
    (h : buf.findIdx? (fun b => b == 10) = some idx) :
    feedLoop buf =
      (utf8DecodeReplace (buf.take (idx + 1)) :: (feedLoop (buf.drop (idx + 1))).1,
       (feedLoop (buf.drop (idx + 1))).2) := by
  conv_lhs => rw [feedLoop.eq_def]
  split
  · rename_i h2
    rw [h] at h2
    cases h2
  · rename_i idx2 h2
    rw [h] at h2
    cases h2
    rfl

theorem feedLoop_eq (buf : List Nat) :
    feedLoop buf = ((extractLines buf).1.map utf8DecodeReplace, (extractLines buf).2) := by
  induction buf using extractLines.induct with
  | case1 x h =>
    rw [feedLoop_of_none h, extractLines_of_none h]
    rfl
  | case2 x idx h ih =>
    rw [feedLoop_of_some h, extractLines_of_some h]
    simp [ih]

/-- C7: decoding received bytes into displayable text never fails:
strict decoding may reject an input (`none`, a raised
`UnicodeDecodeError`), but replacement decoding is total, agrees with
strict decoding whenever the latter succeeds, and substitutes U+FFFD
on invalid input (for instance the lone byte 0xFF) and continues; and
the substitution never changes the byte-level framing: `feed` groups
and buffers exactly the bytes that the byte-level `feedBytes` does,
decoding each frame only afterwards. -/
theorem decode_never_fails_framing_unchanged (buf data bs cs : List Nat)
    (h : utf8DecodeStrict bs = some cs) :
    feed buf data =
      (((feedBytes buf data).1).map utf8DecodeReplace, (feedBytes buf data).2) ∧
    utf8DecodeReplace bs = cs ∧
    utf8DecodeStrict [0xFF] = none ∧
    utf8DecodeReplace [0xFF] = [replCp] := by
  refine ⟨?_, utf8_strict_agree bs cs h, by decide, by decide⟩
  unfold feed feedBytes
  exact feedLoop_eq (buf ++ data)

theorem decode_never_fails_witness :
    feed [] [104, 10] =
      (((feedBytes [] [104, 10]).1).map utf8DecodeReplace, (feedBytes [] [104, 10]).2) ∧
    utf8DecodeReplace [0xC3, 0xA9] = [0xE9] ∧
    utf8DecodeStrict [0xFF] = none ∧
    utf8DecodeReplace [0xFF] = [replCp] :=
  decode_never_fails_framing_unchanged [] [104, 10] [0xC3, 0xA9] [0xE9] (by decide)

/-- C9: every frame emitted by `LineBuffer.feed` ends with a linefeed
and contains exactly one linefeed, which is its last element — at byte
level (the frame is a linefeed-free prefix plus the byte 0x0A) and in
the decoded text (last code point 10, exactly one occurrence). -/
theorem frames_single_trailing_newline (chunks : List (List Nat)) (f : List Nat)
    (hf : f ∈ (feedAll chunks).1) :
    (∃ p, f = p ++ [10] ∧ 10 ∉ p) ∧
    (utf8DecodeReplace f).getLast? = some 10 ∧
    (utf8DecodeReplace f).count 10 = 1 := by
  rw [feedAll_eq] at hf
  obtain ⟨p, hp, hnp⟩ := extractLines_frames chunks.flatten f hf
  subst hp
  refine ⟨⟨p, rfl, hnp⟩, ?_, ?_⟩
  · rw [utf8_append_lf, List.getLast?_concat]
  · rw [utf8_append_lf, List.count_append, utf8_count_lf]
    have hz : p.count 10 = 0 := List.count_eq_zero.mpr hnp
    simp [hz]

theorem frames_single_trailing_newline_witness :
    (∃ p, [104, 10] = p ++ [10] ∧ 10 ∉ p) ∧
    (utf8DecodeReplace [104, 10]).getLast? = some 10 ∧
    (utf8DecodeReplace [104, 10]).count 10 = 1 :=
  frames_single_trailing_newline [[104, 10]] [104, 10] (by
    rw [feedAll_eq, extractLines_eq_S]
    decide)

/-! ## Event-loop model

Shallow embedding of the dispatch logic of `run_server`
(chat_server.py lines 91-259) and `run_client` (chat_client.py lines
64-189).  A state records the selector registrations, the
single-client socket reference (`client_sock_ref[0]`), the framing
mode, whether raw terminal mode was entered, and whether the run loop
is still alive.  One step consumes one readiness event together with
the data the corresponding read produced (and, for sends, whether
`sendall` raised) and returns the successor state plus the observable
actions the handler performs, in order. -/

/-- Framing mode, fixed at startup (chat_server.py parse_args). -/
inductive Mode where
  | line
  | char
deriving DecidableEq

/-- A source registered with the selector. -/
inductive Source where
  | listen
  | stdin
  | clientConn (id : Nat)
  | serverConn
deriving DecidableEq

/-- Observable side effects of one dispatch. -/
inductive Action where
  | sendAttempt (sock : Nat) (data : List Nat)
  | close (sock : Nat)
  | registerSrc (s : Source)
  | unregisterSrc (s : Source)
  | printMsg (msg : String)
  | writeStdoutBytes (data : List Nat)
  | writeStdoutText (text : List Nat)
deriving DecidableEq

/-- The fixed busy notice, `b"server busy. try later.\n"`
(chat_server.py line 183). -/
def busyNotice : List Nat := "server busy. try later.\n".toList.map Char.toNat

/-- Server loop state: `client_sock_ref[0]` and the selector
registrations (chat_server.py lines 105-109). -/
structure ServerState where
  mode : Mode
  clientSock : Option Nat
  registered : List Source
  rawMode : Bool
  running : Bool
deriving DecidableEq

/-- One readiness event delivered to the server loop, together with
what the corresponding system call returned. -/
inductive SEvent where
  | accept (connId : Nat)
  | clientRecv (reset : Bool) (data : List Nat)
  | stdinRead (data : List Nat) (sendOk : Bool)
deriving DecidableEq

/-- One iteration of the server dispatch (chat_server.py lines
175-243).  `accept`: reject with the busy notice when a client is
already connected, otherwise promote the connection.  `clientRecv`: a
`ConnectionResetError` is treated as empty data; empty data tears the
session down and returns to listening; otherwise the bytes are written
to stdout.  `stdinRead`: an empty read continues the loop; otherwise
the bytes are sent to the client when one is connected (a failed
`sendall` only prints a notice), and are echoed or reported when no
client is connected. -/
def serverStep (s : ServerState) (e : SEvent) : ServerState × List Action :=
  match e with
  | .accept conn =>
    match s.clientSock with
    | some _ => (s, [.sendAttempt conn busyNotice, .close conn])
    | none =>
      ({ s with clientSock := some conn,
                registered := s.registered ++ [.clientConn conn] },
       [.registerSrc (.clientConn conn), .printMsg "client connected"])
  | .clientRecv reset data =>
    match s.clientSock with
    | none => (s, [])
    | some c =>
      let d := if reset then [] else data
      if d = [] then
        ({ s with clientSock := none,
                  registered := s.registered.erase (.clientConn c) },
         [.printMsg "client disconnected", .unregisterSrc (.clientConn c), .close c])
      else
        (s, [.writeStdoutBytes d])
  | .stdinRead data sendOk =>
    match s.mode with
    | .char =>
      if data = [] then (s, [])
      else
        match s.clientSock with
        | some c =>
          if sendOk then (s, [.sendAttempt c data])
          else (s, [.sendAttempt c data,
                    .printMsg "failed to send; client likely disconnected"])
        | none => (s, [.writeStdoutBytes data])
    | .line =>
      if data = [] then (s, [])
      else
        match s.clientSock with
        | some c =>
          if sendOk then (s, [.sendAttempt c data])
          else (s, [.sendAttempt c data,
                    .printMsg "failed to send; client likely disconnected"])
        | none => (s, [.printMsg "no client connected yet"])

/-- Client loop state (chat_client.py lines 66-78). -/
structure ClientState where
  sock : Nat
  registered : List Source
  recvBuf : List Nat
  rawMode : Bool
  running : Bool
deriving DecidableEq

/-- One readiness event delivered to the client loop. -/
inductive CEvent where
  | serverRecv (reset : Bool) (data : List Nat)
  | stdinRead (data : List Nat) (sendOk : Bool)
deriving DecidableEq

/-- One iteration of the client dispatch (chat_client.py lines
153-180).  `serverRecv`: a reset counts as empty data; empty data ends
the run loop (`return`); otherwise the bytes go through the line
buffer and each decoded line is written to stdout.  `stdinRead`: an
empty read continues; otherwise the byte is sent, and a failed
`sendall` prints a notice and ends the run loop (`return`). -/
def clientStep (s : ClientState) (e : CEvent) : ClientState × List Action :=
  match e with
  | .serverRecv reset data =>
    let d := if reset then [] else data
    if d = [] then
      ({ s with running := false }, [.printMsg "server closed connection"])
    else
      ({ s with recvBuf := (feed s.recvBuf d).2 },
       (feed s.recvBuf d).1.map (fun line => .writeStdoutText line))
  | .stdinRead data sendOk =>
    if data = [] then (s, [])
    else if sendOk then (s, [.sendAttempt s.sock data])
    else ({ s with running := false },
          [.sendAttempt s.sock data, .printMsg "failed to send; server disconnected?"])

/-- Server startup (chat_server.py lines 93-169): the listening socket
is registered; in char mode on Unix the code tries to enter raw
terminal mode — failure is swallowed (`except: pass`, lines 158-160) —
and registers stdin unconditionally (line 162); on Windows a daemon
thread reads stdin instead; in line mode stdin is registered with the
normal terminal. -/
def serverSetup (mode : Mode) (isWindows rawOk : Bool) : ServerState :=
  let base : ServerState :=
    { mode := mode, clientSock := none, registered := [.listen],
      rawMode := false, running := true }
  match mode with
  | .char =>
    if isWindows then base
    else { base with rawMode := rawOk, registered := base.registered ++ [.stdin] }
  | .line => { base with registered := base.registered ++ [.stdin] }

/-- Client startup (chat_client.py lines 66-150): the server socket is
registered; on Unix the code tries to enter raw terminal mode —
failure only prints a notice (lines 143-145) — and registers stdin
unconditionally (line 146); on Windows a daemon thread reads stdin. -/
def clientSetup (isWindows rawOk : Bool) : ClientState :=
  let base : ClientState :=
    { sock := 0, registered := [.serverConn], recvBuf := [],
      rawMode := false, running := true }
  if isWindows then base
  else { base with rawMode := rawOk, registered := base.registered ++ [.stdin] }

/-- A concrete server state with an active session, used by witnesses
and the C5 counterexample. -/
def sampleServer : ServerState :=
  { mode := .char, clientSock := some 5,
    registered := [.listen, .stdin, .clientConn 5], rawMode := true, running := true }

/-- A concrete client state, used by witnesses. -/
def sampleClient : ClientState :=
  { sock := 0, registered := [.serverConn, .stdin], recvBuf := [],
    rawMode := true, running := true }

/-- C3: while a session is active, a new inbound connection is sent
the fixed busy notice — the ASCII bytes of "server busy. try later."
followed by a linefeed — and closed immediately; the dispatch performs
exactly those two actions, so the socket is never registered with the
selector and never promoted, and the state (including the existing
session) is unchanged. -/
theorem busy_reject (s : ServerState) (conn c : Nat) (h : s.clientSock = some c) :
    serverStep s (.accept conn) = (s, [.sendAttempt conn busyNotice, .close conn]) ∧
    busyNotice = ("server busy. try later.".toList.map Char.toNat) ++ [10] := by
  constructor
  · simp [serverStep, h]
  · decide

theorem busy_reject_witness :
    serverStep sampleServer (SEvent.accept 9) =
      (sampleServer, [.sendAttempt 9 busyNotice, .close 9]) ∧
    busyNotice = ("server busy. try later.".toList.map Char.toNat) ++ [10] :=
  busy_reject sampleServer 9 5 rfl

/-- C4: a zero-length read on the active connection (a reset is also
mapped to empty data) always tears the session down and is handled,
not raised: the server prints a notice, unregisters and closes the
client socket, clears the reference, keeps its loop running, and a
subsequent accept promotes a new client; the client ends its run
loop. -/
theorem zero_read_teardown (s : ServerState) (cs : ClientState) (c n : Nat)
    (r r2 : Bool) (h : s.clientSock = some c) :
    serverStep s (.clientRecv r []) =
      ({ s with clientSock := none,
                registered := s.registered.erase (.clientConn c) },
       [.printMsg "client disconnected", .unregisterSrc (.clientConn c), .close c]) ∧
    (serverStep s (.clientRecv r [])).1.running = s.running ∧
    (serverStep (serverStep s (.clientRecv r [])).1 (.accept n)).1.clientSock = some n ∧
    (clientStep cs (.serverRecv r2 [])).1.running = false := by
  have hstep : serverStep s (.clientRecv r []) =
      ({ s with clientSock := none,
                registered := s.registered.erase (.clientConn c) },
       [.printMsg "client disconnected", .unregisterSrc (.clientConn c), .close c]) := by
    cases r <;> simp [serverStep, h]
  refine ⟨hstep, by rw [hstep], ?_, by cases r2 <;> simp [clientStep]⟩
  rw [hstep]
  simp [serverStep]

theorem zero_read_teardown_witness :
    serverStep sampleServer (SEvent.clientRecv false []) =
      ({ sampleServer with clientSock := none,
                           registered := sampleServer.registered.erase (.clientConn 5) },
       [.printMsg "client disconnected", .unregisterSrc (.clientConn 5), .close 5]) ∧
    (serverStep sampleServer (SEvent.clientRecv false [])).1.running = sampleServer.running ∧
    (serverStep (serverStep sampleServer (SEvent.clientRecv false [])).1
        (SEvent.accept 7)).1.clientSock = some 7 ∧
    (clientStep sampleClient (CEvent.serverRecv false [])).1.running = false :=
  zero_read_teardown sampleServer sampleClient 5 7 false false rfl

/-- C5 counterexample: on the server, a failed `sendall` on stdin
input leaves the state — including the client-socket reference —
unchanged, and the very next stdin byte is again sent to the same
socket, contradicting the claim that every send failure tears the
session down and that no further sends are attempted on that
socket. -/
theorem send_failure_counterexample :
    (serverStep sampleServer (SEvent.stdinRead [104] false)).1 = sampleServer ∧
    (serverStep (serverStep sampleServer (SEvent.stdinRead [104] false)).1
        (SEvent.stdinRead [105] true)).2 = [.sendAttempt 5 [105]] ∧
    (serverStep sampleServer (SEvent.stdinRead [104] false)).2 =
      [.sendAttempt 5 [104], .printMsg "failed to send; client likely disconnected"] :=
  ⟨rfl, rfl, rfl⟩

/-- C5 amended: a send failure is reported and the failed send is
never retried, on both sides; it is fatal to the session on the
client, whose run loop ends; on the server it is not fatal — the
state, including the client reference, is unchanged, so the session
survives and later input bytes are still sent to the same socket. -/
theorem send_failure_behavior (s : ServerState) (cs : ClientState) (c : Nat)
    (data : List Nat) (h : s.clientSock = some c) (hd : data ≠ []) :
    serverStep s (.stdinRead data false) =
      (s, [.sendAttempt c data, .printMsg "failed to send; client likely disconnected"]) ∧
    clientStep cs (.stdinRead data false) =
      ({ cs with running := false },
       [.sendAttempt cs.sock data, .printMsg "failed to send; server disconnected?"]) := by
  constructor
  · cases hm : s.mode <;> simp [serverStep, hm, h, hd]
  · simp [clientStep, hd]

theorem send_failure_behavior_witness :
    serverStep sampleServer (SEvent.stdinRead [104] false) =
      (sampleServer,
       [.sendAttempt 5 [104], .printMsg "failed to send; client likely disconnected"]) ∧
    clientStep sampleClient (CEvent.stdinRead [104] false) =
      ({ sampleClient with running := false },
       [.sendAttempt sampleClient.sock [104],
        .printMsg "failed to send; server disconnected?"]) :=
  send_failure_behavior sampleServer sampleClient 5 [104] rfl (by decide)

/-- C6: end-of-input on stdin never terminates the relay: an empty
stdin read leaves both loops' state — session, registrations,
liveness — unchanged and performs no action; the loop just continues
waiting. -/
theorem stdin_eof_continue (s : ServerState) (cs : ClientState) (ok ok2 : Bool) :
    serverStep s (.stdinRead [] ok) = (s, []) ∧
    clientStep cs (.stdinRead [] ok2) = (cs, []) := by
  constructor
  · cases hm : s.mode <;> simp [serverStep, hm]
  · simp [clientStep]

/-- C2 counterexample: the client has no mode flag — its receive path
(chat_client.py lines 156-168) feeds every delivered chunk through the
LineBuffer even in a char-mode run.  Delivering the single byte 104
(no linefeed) emits zero frames, not one frame per byte: the byte is
held back in the buffer waiting for a linefeed. -/
theorem charMode_client_counterexample :
    clientStep sampleClient (CEvent.serverRecv false [104]) =
      ({ sampleClient with recvBuf := [104] }, []) := by
  have hfeed : feed ([] : List Nat) [104] = ([], [104]) := by
    unfold feed
    rw [feedLoop_of_none (by decide)]
    rfl
  simp [clientStep, sampleClient, hfeed]

/-- C2 amended: in char mode the typed-input framing and the server's
receive path are pass-through: each byte read from stdin is
immediately sent as its own single-byte frame with the state (hence
any buffer) unchanged (chat_server.py lines 218-225, chat_client.py
lines 169-177), and the server writes every received chunk to stdout
byte-for-byte with no delimiter scanning and no buffering
(chat_server.py lines 209-211).  The client's receive path, however,
is line-based even in char-mode runs (chat_client.py lines 156-168):
delivered bytes go through the LineBuffer, and without a linefeed they
are all held back in the buffer and no frame is emitted. -/
theorem charMode_framing (s : ServerState) (c b : Nat) (data : List Nat)
    (cs : ClientState) (hm : s.mode = .char) (h : s.clientSock = some c)
    (hd : data ≠ []) (hnl : 10 ∉ cs.recvBuf ++ data) :
    serverStep s (.stdinRead [b] true) = (s, [.sendAttempt c [b]]) ∧
    clientStep cs (.stdinRead [b] true) = (cs, [.sendAttempt cs.sock [b]]) ∧
    serverStep s (.clientRecv false data) = (s, [.writeStdoutBytes data]) ∧
    clientStep cs (.serverRecv false data) =
      ({ cs with recvBuf := cs.recvBuf ++ data }, []) := by
  refine ⟨by simp [serverStep, hm, h], by simp [clientStep], ?_, ?_⟩
  · simp [serverStep, h, hd]
  · have hnone : (cs.recvBuf ++ data).findIdx? (fun v => v == 10) = none := by
      rw [List.findIdx?_eq_none_iff]
      intro x hx
      have hne : x ≠ 10 := by
        intro hx10
        subst hx10
        exact hnl hx
      simpa using hne
    have hfeed : feed cs.recvBuf data = ([], cs.recvBuf ++ data) := by
      unfold feed
      rw [feedLoop_of_none hnone]
    simp [clientStep, hd, hfeed]

theorem charMode_framing_witness :
    serverStep sampleServer (SEvent.stdinRead [104] true) =
      (sampleServer, [.sendAttempt 5 [104]]) ∧
    clientStep sampleClient (CEvent.stdinRead [104] true) =
      (sampleClient, [.sendAttempt sampleClient.sock [104]]) ∧
    serverStep sampleServer (SEvent.clientRecv false [104, 105]) =
      (sampleServer, [.writeStdoutBytes [104, 105]]) ∧
    clientStep sampleClient (CEvent.serverRecv false [104, 105]) =
      ({ sampleClient with recvBuf := sampleClient.recvBuf ++ [104, 105] }, []) :=
  charMode_framing sampleServer 5 104 [104, 105] sampleClient rfl rfl
    (by decide) (by decide)

/-- C8: failing to enter raw terminal mode at startup never aborts the
program: on Unix, with raw-mode entry failing, both server and client
still start with a live event loop, stdin is still registered with the
selector, and the registrations are identical to those of a successful
raw-mode entry. -/
theorem raw_mode_failure_degrades (m : Mode) (rawOk : Bool) :
    (serverSetup m false false).running = true ∧
    Source.stdin ∈ (serverSetup m false false).registered ∧
    (serverSetup m false false).registered = (serverSetup m false rawOk).registered ∧
    (clientSetup false false).running = true ∧
    Source.stdin ∈ (clientSetup false false).registered ∧
    (clientSetup false false).registered = (clientSetup false rawOk).registered := by
  cases m <;> cases rawOk <;>
    exact ⟨rfl, by decide, rfl, rfl, by decide, rfl⟩

end Chat
